import Mathlib

/-!
Shallow embedding of the tensors++ core (shape.hpp, slicer.hpp, tensor_config.hpp,
tensor.hpp) and proofs about the claims of its specification.

The embedding follows the final revision of each header (the one the claim line
numbers cite): `shape::Shape` stores `std::vector<uint>` axis sizes, the tensor
keeps a `shape::Shape`, a flat `std::vector<dtype>` buffer, a `Config` and an
`is_frozen` flag.  Machine sizes (`size_t`) are modelled as `Nat`, with an
explicit `% 2^64` where C++ unsigned wraparound matters; buffer elements use
`Int` (the `dtype = int` instantiation of the template).  Throwing functions
return `Except TErr _`.
-/

deriving instance DecidableEq for Except

namespace TensorsPP

/-- The exception taxonomy of tensor_formation.hpp / tensor_operation.hpp,
one constructor per exception class that the embedded code can throw. -/
inductive TErr where
  | badIndexer
  | badReshape
  | badSlice
  | opUndefined
  | broadcastError
  | badInitShape
  deriving DecidableEq, Repr

/-- Config (tensor_config.hpp): two flags. -/
structure Config where
  is_broad_castable : Bool
  is_freezeable : Bool
  deriving DecidableEq, Repr

/-- Config::default_config_instance(): both flags true. -/
def default_config_instance : Config := ⟨true, true⟩

/-- Shape::element_size(): `s = 1; for e in d: s *= e`. -/
def element_size (d : List Nat) : Nat := d.foldl (· * ·) 1

/-- The loop body of Shape::cumulative_shape(): running product `temp`,
pushing `temp * d[t]` at each axis. -/
def cumFrom (temp : Nat) : List Nat → List Nat
  | [] => []
  | e :: es => (temp * e) :: cumFrom (temp * e) es

/-- Shape::cumulative_shape(): `cum[t] = d[0] * ... * d[t]`. -/
def cumulative_shape (d : List Nat) : List Nat := cumFrom 1 d

/-- Shape::reverse_cumulative_shape(): the cumulative list, reversed. -/
def reverse_cumulative_shape (d : List Nat) : List Nat := (cumulative_shape d).reverse

/-- Shape::Shape(std::vector<int>): each entry `e <= 0` is stored as `0`,
a positive entry is stored unchanged (cast to uint). -/
def shapeFromInts (s : List Int) : List Nat :=
  s.map (fun e => if e ≤ 0 then 0 else e.toNat)

/-- Shape::is_initial_valid_shape: false iff some stored (uint) entry is 0
(`e <= 0` on a uint means `e == 0`). -/
def is_initial_valid_shape (d : List Nat) : Bool :=
  d.all (fun e => decide (0 < e))

/-- The tensor state (final revision of tensor.hpp): a Shape, the flat data
buffer, the Config and the frozen flag.  `element_count` and `cum_shpe` are
always recomputed from the shape by `update_shape`, so they are derived here. -/
structure Tensor where
  shpe : List Nat
  data : List Int
  cfg : Config
  is_frozen : Bool
  deriving DecidableEq, Repr

/-- tensor::update_shape: installs a new shape (the cached cumulative shape and
element count are derived from it). -/
def update_shape (t : Tensor) (ns : List Nat) : Tensor := { t with shpe := ns }

/-- The loop of tensor::to_flat_index, iterated over `t = 0 .. shpe.element_size()-1`:
checks `s[t] > shpe[t]` and accumulates `s[t] * (element_count / cum_shpe[t])`.
An out-of-range vector/initializer-list read (possible because the loop bound is
`element_size`, not the dimension) is undefined behaviour in the C++ source; it
is modelled as a `badIndexer` failure. -/
def tfiLoop (shpe cum s : List Nat) (ec : Nat) : List Nat → Nat → Except TErr Nat
  | [], ssf => .ok ssf
  | t :: ts, ssf =>
    match s.get? t, shpe.get? t, cum.get? t with
    | some st, some dt, some ct =>
        if st > dt then .error .badIndexer
        else tfiLoop shpe cum s ec ts (ssf + st * (ec / ct))
    | _, _, _ => .error .badIndexer

/-- tensor::to_flat_index (final revision): first compares the indexer length
against `shpe.element_size()` (not the dimension), then runs the accumulation
loop over `element_size` many axis positions. -/
def to_flat_index (shpe : List Nat) (s : List Nat) : Except TErr Nat :=
  if s.length ≠ element_size shpe then .error .badIndexer
  else tfiLoop shpe (cumulative_shape shpe) s (element_size shpe)
        (List.range (element_size shpe)) 0

/-- The entry-scanning loop of tensor::reshape.  State: `running_index`,
`auto_shape` (an `int`, initialised to `-1`) and the running product `ss`.
`if (e < 0 && auto_shape)` in the C++ converts `auto_shape` to bool, i.e. tests
`auto_shape != 0`; on the branch that records an inferred axis the two
assignments `auto_shape = true; auto_shape = running_index;` leave
`auto_shape = running_index`. -/
def reshapeLoop : List Int → Nat → Int → Nat → Except TErr (Nat × Int)
  | [], _, auto_shape, ss => .ok (ss, auto_shape)
  | e :: es, running_index, auto_shape, ss =>
    if e = 0 then .error .badReshape
    else if e < 0 ∧ auto_shape ≠ 0 then .error .badReshape
    else if e < 0 then reshapeLoop es (running_index + 1) running_index ss
    else reshapeLoop es (running_index + 1) auto_shape (ss * e.toNat)

/-- tensor::reshape (final revision).  After the scan: if the product equals
`element_count` the new shape is installed; else if an inferred axis was
recorded and `element_count` divides evenly, the inferred axis is set to
`element_count / ss` and the shape installed; otherwise bad_reshape. -/
def reshape (t : Tensor) (new_shape : List Int) : Except TErr Tensor :=
  match reshapeLoop new_shape 0 (-1) 1 with
  | .error er => .error er
  | .ok (ss, auto_shape) =>
    if ss = element_size t.shpe then .ok (update_shape t (shapeFromInts new_shape))
    else if auto_shape ≠ -1 then
      if element_size t.shpe % ss = 0 then
        .ok (update_shape t
          (shapeFromInts (new_shape.set auto_shape.toNat
            (Int.ofNat (element_size t.shpe / ss)))))
      else .error .badReshape
    else .error .badReshape

/-- tensor::freeze (final revision): sets the frozen flag when the config is
freezeable (plus a capacity `shrink_to_fit`, not observable in the value
model); otherwise throws operation_undefined. -/
def freeze (t : Tensor) : Except TErr Tensor :=
  if t.cfg.is_freezeable then .ok { t with is_frozen := true }
  else .error .opUndefined

/-- tensor::unfreeze: clears the flag, never fails. -/
def unfreeze (t : Tensor) : Tensor := { t with is_frozen := false }

/-- `n` successive `data.pop_back()` calls (a pop on an empty vector — which is
undefined behaviour in C++ — is modelled as leaving the empty vector). -/
def popBackN : Nat → List Int → List Int
  | 0, l => l
  | n + 1, l => popBackN n l.dropLast

/-- One size_t word: the pop count `new_s - old` in resize_shape is computed in
`size_t`, so a negative mathematical difference wraps modulo `2^64`. -/
def SIZE_T_MOD : Nat := 2 ^ 64

/-- tensor::resize_shape: appends `new_s - old` zero elements when growing, and
runs `(size_t)(new_s - old)` pop_back iterations when shrinking (a wrapped,
astronomically large count, since `new_s < old` there); then installs the new
shape. -/
def resize_shape (t : Tensor) (new_shape : List Nat) : Tensor :=
  let old := element_size t.shpe
  let new_s := element_size new_shape
  let d1 := if new_s > old then t.data ++ List.replicate (new_s - old) 0 else t.data
  let d2 := if new_s < old then popBackN ((new_s + SIZE_T_MOD - old) % SIZE_T_MOD) d1 else d1
  update_shape { t with data := d2 } new_shape

/-- tensor::axis_wise: groups the flat buffer for one axis.  `rep` is
`reverse_cumulative_shape()[axis] / shpe[axis]`, `epoch` is
`cumulative_shape()[axis] / shpe[axis]`, `current` is `shpe[axis]`, and
`last_repeat` is `0` for axis 0, else
`reverse_cumulative_shape()[axis-1] / shpe[axis-1]`.  For every `r < rep` the
code pushes `epoch` groups (each reading `data[e*last_repeat + c*rep + r]` for
`c < current`) and then pushes `internal` once more after clearing it, i.e. an
empty group. -/
def axis_wise (shpe : List Nat) (data : List Int) (axis : Nat) : List (List Int) :=
  let rep := (reverse_cumulative_shape shpe).getD axis 0 / shpe.getD axis 0
  let epoch := (cumulative_shape shpe).getD axis 0 / shpe.getD axis 0
  let current := shpe.getD axis 0
  let last_repeat :=
    if axis = 0 then 0
    else (reverse_cumulative_shape shpe).getD (axis - 1) 0 / shpe.getD (axis - 1) 0
  (List.range rep).foldl (fun ext r =>
    ((List.range epoch).foldl (fun ext2 e =>
      ext2 ++ [(List.range current).map
        (fun c => data.getD (e * last_repeat + c * rep + r) 0)]) ext) ++ [[]]) []

/-- The per-index loop of tensor::operator[](const tensor<uint>&): for each
loop counter `k` below the index tensor's element count, the code compares the
COUNTER `k` (not the indexed value) against this tensor's element size and then
pushes `indexList.data[k]` (the index value itself, not the selected element). -/
def gatherLoop (maxIdx : Nat) (idxData : List Nat) : List Nat → List Int → Except TErr (List Int)
  | [], acc => .ok acc
  | k :: ks, acc =>
    if k > maxIdx then .error .opUndefined
    else gatherLoop maxIdx idxData ks (acc ++ [Int.ofNat (idxData.getD k 0)])

/-- tensor::operator[](const tensor<uint>& indexList): requires the index
tensor to be 1-dimensional, then runs the loop above over
`indexList.shape().element_size()` counters. -/
def gatherIdx (t : Tensor) (idxShape : List Nat) (idxData : List Nat) : Except TErr (List Int) :=
  if idxShape.length ≠ 1 then .error .opUndefined
  else gatherLoop (element_size t.shpe) idxData (List.range (element_size idxShape)) []

/-- tensor::operator+ (final revision, tensor plus tensor): throws
operation_undefined whenever the shapes differ (no config is consulted, no
broadcasting).  The equal-shape branch fills a local `res` with the
elementwise sums but then falls off the end of the value-returning function
without ever returning `res` — undefined behaviour with no defined result
value, so that branch is modelled as `Except.ok none`. -/
def tensor_add (a b : Tensor) : Except TErr (Option (List Int)) :=
  if b.shpe ≠ a.shpe then .error .opUndefined
  else .ok none

/-- tensor::operator- (final revision): same dispatch as operator+, and the
same missing `return res` on the equal-shape branch (modelled as `none`). -/
def tensor_sub (a b : Tensor) : Except TErr (Option (List Int)) :=
  if b.shpe ≠ a.shpe then .error .opUndefined
  else .ok none

/-- tensor::operator* (final revision): same dispatch as operator+, and the
same missing `return res` on the equal-shape branch (modelled as `none`). -/
def tensor_mul (a b : Tensor) : Except TErr (Option (List Int)) :=
  if b.shpe ≠ a.shpe then .error .opUndefined
  else .ok none

/-- tensor::operator/ (final revision): same dispatch as operator+, and the
same missing `return res` on the equal-shape branch (modelled as `none`). -/
def tensor_div (a b : Tensor) : Except TErr (Option (List Int)) :=
  if b.shpe ≠ a.shpe then .error .opUndefined
  else .ok none

/-- The loop body of tensor::clip on one element: first `if (e > max) e = max;`
then `if (e < min) e = min;`. -/
def clipElem (mx mn e : Int) : Int :=
  let e1 := if e > mx then mx else e
  if e1 < mn then mn else e1

/-- tensor::clip(max, min): applies the two comparisons to every buffer
element in place. -/
def clip (t : Tensor) (mx mn : Int) : Tensor :=
  { t with data := t.data.map (clipElem mx mn) }

/-- Slicer bound to a Shape (the final slicer revision, with
`original_shape`): per-axis start and stop and a single step. -/
structure Slicer where
  start : List Nat
  stop : List Nat
  original_shape : List Nat
  step : Nat
  deriving DecidableEq, Repr

/-- The per-axis loop of Slicer::validate, iterated over `t = 0 .. start.size()-1`:
bad_slice when `start[t] > stop[t]` or `stop[t] > original_shape.d[t]`. -/
def validateAxes (sl : Slicer) : List Nat → Except TErr Unit
  | [] => .ok ()
  | t :: ts =>
    if sl.start.getD t 0 > sl.stop.getD t 0 ∨ sl.stop.getD t 0 > sl.original_shape.getD t 0
    then .error .badSlice
    else validateAxes sl ts

/-- Slicer::validate: length guard (`start.size() != stop.size() ||
start.size() != original_shape.dimension()`), the zero-step guard, then the
per-axis loop. -/
def validate (sl : Slicer) : Except TErr Unit :=
  if sl.start.length ≠ sl.stop.length ∨ sl.start.length ≠ sl.original_shape.length then
    .error .badSlice
  else if sl.step = 0 then .error .badSlice
  else validateAxes sl (List.range sl.start.length)

/-- The failure condition of Slicer::validate exactly as the claim phrases it:
length mismatch between start, stop or the bound shape, a zero step, or some
axis with start above stop or stop above the shape extent. -/
def ClaimBadSlice (sl : Slicer) : Prop :=
  sl.start.length ≠ sl.stop.length ∨ sl.start.length ≠ sl.original_shape.length ∨
  sl.stop.length ≠ sl.original_shape.length ∨ sl.step = 0 ∨
  ∃ t, t < sl.start.length ∧
    (sl.start.getD t 0 > sl.stop.getD t 0 ∨ sl.stop.getD t 0 > sl.original_shape.getD t 0)

/-! ### Helper lemmas -/

theorem validateAxes_cons (sl : Slicer) (a : Nat) (as : List Nat) :
    validateAxes sl (a :: as) =
      if sl.start.getD a 0 > sl.stop.getD a 0 ∨ sl.stop.getD a 0 > sl.original_shape.getD a 0
      then Except.error TErr.badSlice else validateAxes sl as := rfl

theorem validateAxes_error_iff (sl : Slicer) (l : List Nat) :
    validateAxes sl l = Except.error TErr.badSlice ↔
      ∃ t ∈ l, sl.start.getD t 0 > sl.stop.getD t 0 ∨
        sl.stop.getD t 0 > sl.original_shape.getD t 0 := by
  induction l with
  | nil => simp [validateAxes]
  | cons a as ih =>
    rw [validateAxes_cons]
    by_cases h : sl.start.getD a 0 > sl.stop.getD a 0 ∨
        sl.stop.getD a 0 > sl.original_shape.getD a 0
    · rw [if_pos h]
      exact iff_of_true rfl ⟨a, List.mem_cons_self a as, h⟩
    · rw [if_neg h, ih]
      constructor
      · rintro ⟨t, ht, hb⟩
        exact ⟨t, List.mem_cons_of_mem _ ht, hb⟩
      · rintro ⟨t, ht, hb⟩
        rcases List.mem_cons.mp ht with rfl | ht'
        · exact absurd hb h
        · exact ⟨t, ht', hb⟩

theorem validateAxes_ok_or_error (sl : Slicer) (l : List Nat) :
    validateAxes sl l = Except.ok () ∨ validateAxes sl l = Except.error TErr.badSlice := by
  induction l with
  | nil => exact Or.inl rfl
  | cons a as ih =>
    rw [validateAxes_cons]
    by_cases h : sl.start.getD a 0 > sl.stop.getD a 0 ∨
        sl.stop.getD a 0 > sl.original_shape.getD a 0
    · rw [if_pos h]; exact Or.inr rfl
    · rw [if_neg h]; exact ih

theorem validate_ok_or_error (sl : Slicer) :
    validate sl = Except.ok () ∨ validate sl = Except.error TErr.badSlice := by
  unfold validate
  split
  · exact Or.inr rfl
  · split
    · exact Or.inr rfl
    · exact validateAxes_ok_or_error sl _

theorem popBackN_eq_nil (n : Nat) (l : List Int) (h : l.length ≤ n) : popBackN n l = [] := by
  induction n generalizing l with
  | zero =>
    have : l = [] := List.length_eq_zero.mp (Nat.le_zero.mp h)
    simp [this, popBackN]
  | succ n ih =>
    have hlen : l.dropLast.length ≤ n := by
      rw [List.length_dropLast]; omega
    simpa [popBackN] using ih l.dropLast hlen

theorem resize_shape_shrink (t : Tensor) (ns : List Nat)
    (h : element_size ns < element_size t.shpe) :
    (resize_shape t ns).data
      = popBackN ((element_size ns + SIZE_T_MOD - element_size t.shpe) % SIZE_T_MOD) t.data := by
  simp only [resize_shape, update_shape]
  rw [if_pos h, if_neg (by omega)]

/-! ### The claims -/

/-- C1: the spec says to_flat_index rejects a multi-index whose length differs
from the tensor's dimension and otherwise returns the row-major flat address,
so that for shape (2,3) the multi-index [1,2] maps to 5.  The code instead
compares the indexer length against the element count (6 for shape (2,3)), so
to_flat_index on [1,2] throws bad_indexer rather than returning 5. -/
theorem C1_to_flat_index_bug :
    to_flat_index [2, 3] [1, 2] = Except.error TErr.badIndexer ∧
    to_flat_index [2, 3] [1, 2] ≠ Except.ok 5 := by decide

/-- C2: the spec says axis_wise(axis) partitions the buffer into the groups
that vary only along the given axis and that re-flattening reproduces the
buffer.  For shape (2,3) and axis 1 the code computes
repeat = reverse_cumulative_shape[1] / shape[1] = 2 / 3 = 0 and returns no
groups at all, so the regrouped data flattens to the empty list instead of the
original six-element buffer. -/
theorem C2_axis_wise_bug :
    axis_wise [2, 3] [0, 1, 2, 3, 4, 5] 1 = [] ∧
    (axis_wise [2, 3] [0, 1, 2, 3, 4, 5] 1).flatten ≠ [0, 1, 2, 3, 4, 5] := by decide

/-- C3: the spec says a single inferred (-1) entry is resolved to
elementCount / productOfOthers, so a (2,6) tensor reshaped to (-1,3) gets
shape (4,3).  In the code `auto_shape` is initialised to -1 and `if (e < 0 &&
auto_shape)` tests its truthiness, so the very first -1 entry already throws
bad_reshape ("more than one dynamic size") and the inference never happens. -/
theorem C3_reshape_bug :
    reshape ⟨[2, 6], (List.range 12).map Int.ofNat, default_config_instance, false⟩ [-1, 3]
      = Except.error TErr.badReshape ∧
    reshape ⟨[2, 6], (List.range 12).map Int.ofNat, default_config_instance, false⟩ [-1, 3]
      ≠ Except.ok ⟨[4, 3], (List.range 12).map Int.ofNat, default_config_instance, false⟩ := by
  decide

/-- C7: the spec says gather returns the elements of the tensor selected at
the given indices, in index order.  The code instead pushes the index values
themselves (`indexList.data[k]`) and bounds-checks the loop counter rather
than the index, so gathering indices [2,0] from the buffer [10,20,30] returns
[2,0] instead of [30,10]. -/
theorem C7_gather_bug :
    gatherIdx ⟨[3], [10, 20, 30], default_config_instance, false⟩ [2] [2, 0]
      = Except.ok [2, 0] ∧
    gatherIdx ⟨[3], [10, 20, 30], default_config_instance, false⟩ [2] [2, 0]
      ≠ Except.ok [30, 10] := by decide

/-- C8: Slicer::validate fails bad_slice exactly when the start and stop lists
differ in length or either differs from the bound shape's dimension, or the
step is zero, or some axis has start above stop or stop above the shape
extent; otherwise it succeeds. -/
theorem C8_validate_iff (sl : Slicer) :
    (validate sl = Except.error TErr.badSlice ↔ ClaimBadSlice sl) ∧
    (validate sl = Except.ok () ↔ ¬ ClaimBadSlice sl) := by
  have main : validate sl = Except.error TErr.badSlice ↔ ClaimBadSlice sl := by
    unfold validate ClaimBadSlice
    by_cases h1 : sl.start.length ≠ sl.stop.length ∨ sl.start.length ≠ sl.original_shape.length
    · rw [if_pos h1]
      refine iff_of_true rfl ?_
      rcases h1 with h | h
      · exact Or.inl h
      · exact Or.inr (Or.inl h)
    · rw [if_neg h1]
      push_neg at h1
      obtain ⟨hss, hsd⟩ := h1
      by_cases h2 : sl.step = 0
      · rw [if_pos h2]
        exact iff_of_true rfl (Or.inr (Or.inr (Or.inr (Or.inl h2))))
      · rw [if_neg h2, validateAxes_error_iff]
        constructor
        · rintro ⟨t, ht, hb⟩
          exact Or.inr (Or.inr (Or.inr (Or.inr ⟨t, List.mem_range.mp ht, hb⟩)))
        · rintro (h | h | h | h | ⟨t, ht, hb⟩)
          · exact absurd hss h
          · exact absurd hsd h
          · exact absurd (hss ▸ hsd) h
          · exact absurd h h2
          · exact ⟨t, List.mem_range.mpr ht, hb⟩
  refine ⟨main, ?_⟩
  rcases validate_ok_or_error sl with hok | herr
  · rw [hok]
    refine iff_of_true rfl (fun hcb => ?_)
    have := main.mpr hcb
    rw [hok] at this
    exact Except.noConfusion this
  · rw [herr]
    refine iff_of_false (fun h => Except.noConfusion h) (fun hn => hn (main.mp herr))

/-- C9: constructing a Shape from signed integers never fails, each entry
at most zero is stored as axis size 0 while positive entries are kept, and the
result is rejected by is_initial_valid_shape exactly when the input had a
non-positive entry. -/
theorem C9_shape_from_ints (v : List Int) :
    (shapeFromInts v).length = v.length ∧
    (∀ i : Nat, (shapeFromInts v)[i]?
      = v[i]?.map (fun (e : Int) => if e ≤ 0 then (0 : Nat) else e.toNat)) ∧
    (is_initial_valid_shape (shapeFromInts v) = false ↔ ∃ e ∈ v, e ≤ 0) := by
  refine ⟨List.length_map _ _, fun i => List.getElem?_map _ _ _, ?_⟩
  induction v with
  | nil => simp [shapeFromInts, is_initial_valid_shape]
  | cons e es ih =>
    by_cases he : e ≤ 0
    · have h0 : is_initial_valid_shape (shapeFromInts (e :: es)) = false := by
        simp [shapeFromInts, is_initial_valid_shape, he]
      exact iff_of_true h0 ⟨e, List.mem_cons_self e es, he⟩
    · have hpos : 0 < (if e ≤ 0 then 0 else e.toNat) := by
        rw [if_neg he]; omega
      have hstep : is_initial_valid_shape (shapeFromInts (e :: es))
          = is_initial_valid_shape (shapeFromInts es) := by
        simp [shapeFromInts, is_initial_valid_shape, hpos]
      rw [hstep, ih]
      constructor
      · rintro ⟨x, hx, hxle⟩
        exact ⟨x, List.mem_cons_of_mem _ hx, hxle⟩
      · rintro ⟨x, hx, hxle⟩
        rcases List.mem_cons.mp hx with rfl | hx'
        · exact absurd hxle he
        · exact ⟨x, hx', hxle⟩

/-- C4 counterexample: both operands use the default config, which allows
broadcasting, and their shapes (1,3) and (4,3) are broadcast-compatible by the
spec's rule, yet operator+ throws a shape-mismatch error instead of combining
over the unified shape — so the claimed broadcasting path does not exist. -/
theorem C4_counterexample :
    tensor_add ⟨[1, 3], [0, 1, 2], default_config_instance, false⟩
        ⟨[4, 3], (List.range 12).map Int.ofNat, default_config_instance, false⟩
      = Except.error TErr.opUndefined := by decide

/-- C4 (amended): whenever the two operands' shapes differ, each of the four
elementwise binary operators fails with the shape-mismatch
(operation_undefined) error, regardless of either operand's config; the
broadcast engine is never consulted. -/
theorem C4_mismatch_always_fails (a b : Tensor) (h : a.shpe ≠ b.shpe) :
    tensor_add a b = Except.error TErr.opUndefined ∧
    tensor_sub a b = Except.error TErr.opUndefined ∧
    tensor_mul a b = Except.error TErr.opUndefined ∧
    tensor_div a b = Except.error TErr.opUndefined := by
  have h' : b.shpe ≠ a.shpe := h.symm
  refine ⟨?_, ?_, ?_, ?_⟩ <;>
    simp [tensor_add, tensor_sub, tensor_mul, tensor_div, h']

/-- C4 witness: the amended theorem applied to two concrete tensors of shapes
(1,3) and (2,3). -/
theorem C4_mismatch_witness :
    ([1, 3] : List Nat) ≠ [2, 3] ∧
    tensor_sub ⟨[1, 3], [0, 1, 2], default_config_instance, false⟩
        ⟨[2, 3], [0, 1, 2, 3, 4, 5], default_config_instance, false⟩
      = Except.error TErr.opUndefined :=
  ⟨by decide,
   (C4_mismatch_always_fails
      ⟨[1, 3], [0, 1, 2], default_config_instance, false⟩
      ⟨[2, 3], [0, 1, 2, 3, 4, 5], default_config_instance, false⟩ (by decide)).2.1⟩

set_option maxRecDepth 4000 in
/-- C5 counterexample: a tensor with a freezeable config is frozen and then
reshaped from (2,3) to (3,2); reshape succeeds even though the tensor is
frozen, contradicting the claim that shape-mutating operations fail while
frozen. -/
theorem C5_counterexample :
    (freeze ⟨[2, 3], [0, 1, 2, 3, 4, 5], default_config_instance, false⟩).bind
        (fun tf => reshape tf [3, 2])
      = Except.ok ⟨[3, 2], [0, 1, 2, 3, 4, 5], default_config_instance, true⟩ := rfl

/-- C5 (amended): freeze fails (without mutating) exactly when the config is
not freezeable and otherwise sets the frozen flag; but neither reshape nor
resize consults the frozen flag — both behave on a frozen tensor exactly as on
the unfrozen one, apart from carrying the flag along. -/
theorem C5_freeze_flag_ignored (t : Tensor) :
    (t.cfg.is_freezeable = false → freeze t = Except.error TErr.opUndefined) ∧
    (t.cfg.is_freezeable = true → freeze t = Except.ok { t with is_frozen := true }) ∧
    (∀ ns, reshape { t with is_frozen := true } ns
        = (reshape { t with is_frozen := false } ns).map (fun r => { r with is_frozen := true })) ∧
    (∀ ns, resize_shape { t with is_frozen := true } ns
        = { resize_shape { t with is_frozen := false } ns with is_frozen := true }) := by
  refine ⟨fun h => by simp [freeze, h], fun h => by simp [freeze, h], fun ns => ?_, fun ns => rfl⟩
  cases hl : reshapeLoop ns 0 (-1) 1 with
  | error er => simp [reshape, hl, Except.map]
  | ok p =>
    obtain ⟨ss, auto_shape⟩ := p
    by_cases h1 : ss = element_size t.shpe
    · simp [reshape, hl, h1, update_shape, Except.map]
    · by_cases h2 : auto_shape ≠ -1
      · by_cases h3 : element_size t.shpe % ss = 0
        · simp [reshape, hl, h1, h2, h3, update_shape, Except.map]
        · simp [reshape, hl, h1, h2, h3, Except.map]
      · simp [reshape, hl, h1, h2, Except.map]

/-- C5 witness: the amended theorem applied to a non-freezeable and to a
freezeable concrete tensor. -/
theorem C5_freeze_witness :
    freeze ⟨[2], [0, 1], ⟨true, false⟩, false⟩ = Except.error TErr.opUndefined ∧
    freeze ⟨[2], [0, 1], ⟨true, true⟩, false⟩ = Except.ok ⟨[2], [0, 1], ⟨true, true⟩, true⟩ :=
  ⟨(C5_freeze_flag_ignored ⟨[2], [0, 1], ⟨true, false⟩, false⟩).1 rfl,
   (C5_freeze_flag_ignored ⟨[2], [0, 1], ⟨true, true⟩, false⟩).2.1 rfl⟩

/-- C6: the spec says resize preserves the existing elements and removes only
trailing positions when the element count shrinks.  Growing (2,3) to (2,4)
does append zeros, but shrinking to (4) computes the pop count `new_s - old`
in size_t, which wraps to 2^64 - 2, so the loop empties the whole buffer
(and keeps popping an empty vector — undefined behaviour in the C++ source)
instead of keeping the first four elements. -/
theorem C6_resize_shrink_bug :
    resize_shape ⟨[2, 3], [0, 1, 2, 3, 4, 5], default_config_instance, false⟩ [2, 4]
      = ⟨[2, 4], [0, 1, 2, 3, 4, 5, 0, 0], default_config_instance, false⟩ ∧
    (resize_shape ⟨[2, 3], [0, 1, 2, 3, 4, 5], default_config_instance, false⟩ [4]).data = [] ∧
    (resize_shape ⟨[2, 3], [0, 1, 2, 3, 4, 5], default_config_instance, false⟩ [4]).data
      ≠ [0, 1, 2, 3] := by
  have hshrink :
      (resize_shape ⟨[2, 3], [0, 1, 2, 3, 4, 5], default_config_instance, false⟩ [4]).data
        = popBackN ((element_size [4] + SIZE_T_MOD - element_size [2, 3]) % SIZE_T_MOD)
            [0, 1, 2, 3, 4, 5] :=
    resize_shape_shrink ⟨[2, 3], [0, 1, 2, 3, 4, 5], default_config_instance, false⟩ [4]
      (by decide)
  have hnil :
      popBackN ((element_size [4] + SIZE_T_MOD - element_size [2, 3]) % SIZE_T_MOD)
          [0, 1, 2, 3, 4, 5] = [] := by
    refine popBackN_eq_nil _ _ ?_
    have h4 : element_size [4] = 4 := rfl
    have h6 : element_size [2, 3] = 6 := rfl
    rw [h4, h6]
    have h1 : 4 + SIZE_T_MOD - 6 = SIZE_T_MOD - 2 := by
      have : 6 ≤ SIZE_T_MOD := by norm_num [SIZE_T_MOD]
      omega
    rw [h1, Nat.mod_eq_of_lt (by norm_num [SIZE_T_MOD])]
    norm_num [SIZE_T_MOD]
  refine ⟨by decide, hshrink.trans hnil, ?_⟩
  rw [hshrink.trans hnil]
  decide

/-- C10: clip(max, min) with min ≤ max keeps the shape and length, leaves
every element already inside [min, max] unchanged, and maps every element into
[min, max]. -/
theorem C10_clip_correct (t : Tensor) (mx mn : Int) (h : mn ≤ mx) :
    (clip t mx mn).shpe = t.shpe ∧
    (clip t mx mn).data.length = t.data.length ∧
    (∀ (i : Nat) (x : Int), (clip t mx mn).data[i]? = some x → mn ≤ x ∧ x ≤ mx) ∧
    (∀ (i : Nat) (x : Int), t.data[i]? = some x → mn ≤ x → x ≤ mx →
      (clip t mx mn).data[i]? = some x) := by
  have hbound : ∀ y : Int, mn ≤ clipElem mx mn y ∧ clipElem mx mn y ≤ mx := by
    intro y
    simp only [clipElem]
    constructor <;> split_ifs <;> omega
  have hfix : ∀ y : Int, mn ≤ y → y ≤ mx → clipElem mx mn y = y := by
    intro y h1 h2
    simp only [clipElem]
    split_ifs <;> omega
  refine ⟨rfl, List.length_map _ _, ?_, ?_⟩
  · intro i x hx
    rw [show (clip t mx mn).data = t.data.map (clipElem mx mn) from rfl,
      List.getElem?_map] at hx
    obtain ⟨y, _, hfy⟩ := Option.map_eq_some'.mp hx
    exact hfy ▸ hbound y
  · intro i x hx h1 h2
    rw [show (clip t mx mn).data = t.data.map (clipElem mx mn) from rfl,
      List.getElem?_map, hx, Option.map_some', hfix x h1 h2]

/-- C10 witness: the theorem applied to a concrete tensor with bounds
min = 0, max = 5. -/
theorem C10_clip_witness :
    (0 : Int) ≤ 5 ∧
    ((clip ⟨[2, 3], [-5, 1, 2, 3, 4, 99], default_config_instance, false⟩ 5 0).shpe = [2, 3] ∧
     (clip ⟨[2, 3], [-5, 1, 2, 3, 4, 99], default_config_instance, false⟩ 5 0).data.length = 6 ∧
     (∀ (i : Nat) (x : Int),
        (clip ⟨[2, 3], [-5, 1, 2, 3, 4, 99], default_config_instance, false⟩ 5 0).data[i]?
        = some x → 0 ≤ x ∧ x ≤ 5) ∧
     (∀ (i : Nat) (x : Int), ([-5, 1, 2, 3, 4, 99] : List Int)[i]? = some x → 0 ≤ x → x ≤ 5 →
        (clip ⟨[2, 3], [-5, 1, 2, 3, 4, 99], default_config_instance, false⟩ 5 0).data[i]?
          = some x)) :=
  ⟨by decide,
   C10_clip_correct ⟨[2, 3], [-5, 1, 2, 3, 4, 99], default_config_instance, false⟩ 5 0 (by decide)⟩

end TensorsPP
